import Mathlib

/-!
Verification of the vendored aiocometd CometD/Bayeux protocol client
(files `aiocometd/utils.py`, `aiocometd/exceptions.py`, `aiocometd/client.py`,
`aiocometd/constants.py`, `aiocometd/transports/base.py`).

The Python code is shallowly embedded: JSON messages become a structure of
optional fields, Python dict lookups `m["k"]` that may raise `KeyError`
become `Option`-returning functions, Python sets become `Finset`,
floating point numbers become exact rationals, and the stateful transport
object becomes explicit state passing over a state record.  Asynchronous
network calls are abstracted by passing the scripted outcome of each call
as an input and recording which calls happen in a trace.
-/

namespace Aiocometd

/-- Shallow embedding of `aiocometd.constants.TransportState`. -/
inductive TState
  | disconnected
  | serverDisconnected
  | connecting
  | connected
  | disconnecting
  deriving Repr, DecidableEq

/-- Shallow embedding of `aiocometd.constants.ConnectionType`. -/
inductive ConnectionType
  | long_polling
  | websocket
  deriving Repr, DecidableEq

/-- The `value` of a `ConnectionType` enum member (its wire string). -/
def ConnectionType.value : ConnectionType → String
  | .long_polling => "long-polling"
  | .websocket => "websocket"

/-- Embedding of the Python enum constructor call `ConnectionType(type_string)`:
returns the member with the given value, `none` standing for the raised
`ValueError` when no member has that value. -/
def connectionTypeFromString (s : String) : Option ConnectionType :=
  if s = "long-polling" then some ConnectionType.long_polling
  else if s = "websocket" then some ConnectionType.websocket
  else none

/-- A JSON scalar value, as far as the embedded code inspects one.  Python's
`isinstance(x, (int, float))` check in `request_timeout` treats `bool` as
numeric (Python's `bool` is a subclass of `int`), which `pyIsIntOrFloat`
below mirrors. -/
inductive JVal
  | num (q : ℚ)
  | str (s : String)
  | jbool (b : Bool)
  | null
  deriving Repr, DecidableEq

/-- Embedding of Python's `isinstance(v, (int, float))`: true for numbers and
for booleans, because `bool` subclasses `int` in Python. -/
def pyIsIntOrFloat : JVal → Bool
  | .num _ => true
  | .jbool _ => true
  | _ => false

/-- Python numeric coercion of a `JVal` (booleans coerce to 0 or 1); only
meaningful when `pyIsIntOrFloat` holds. -/
def JVal.toQ : JVal → ℚ
  | .num q => q
  | .jbool b => if b then 1 else 0
  | _ => 0

/-- Shallow embedding of the `advice` mapping found in messages and stored in
`TransportBase._reconnect_advice`.  Absent keys are `none`. -/
structure Advice where
  reconnect? : Option String := none
  interval? : Option ℚ := none
  timeout? : Option JVal := none
  deriving Repr, DecidableEq

/-- Shallow embedding of a Bayeux message (a JSON mapping).  Fields the
embedded code never inspects are omitted; optional fields are `Option`,
`none` meaning the key is absent from the mapping. -/
structure Message where
  channel : String
  id? : Option String := none
  clientId? : Option String := none
  successful? : Option Bool := none
  subscription? : Option String := none
  data? : Option String := none
  advice? : Option Advice := none
  error? : Option String := none
  deriving Repr, DecidableEq

/-- The `MetaChannel.SUBSCRIBE` constant, `"/meta/subscribe"`. -/
def metaSubscribeChannel : String := "/meta/subscribe"

/-- The `MetaChannel.UNSUBSCRIBE` constant, `"/meta/unsubscribe"`. -/
def metaUnsubscribeChannel : String := "/meta/unsubscribe"

/-! ### `aiocometd/utils.py`: error-field parsing and message correlation -/

/-- Embedding of `utils.get_error_code`.  The Python function matches the
regex `^\d{3}` against the error field and converts the match with `int`;
here a digit is a decimal digit `0`-`9`, and the value of the match is the
value of the three leading digits. -/
def get_error_code (error_field : Option String) : Option Nat :=
  match error_field with
  | none => none
  | some s =>
    match s.toList with
    | c1 :: c2 :: c3 :: _ =>
      if c1.isDigit && c2.isDigit && c3.isDigit then
        some ((c1.toNat - 48) * 100 + (c2.toNat - 48) * 10 + (c3.toNat - 48))
      else none
    | _ => none

/-- Characters strictly after the last colon of `cs`, or `none` when `cs`
contains no colon; this is what the regex `(?<=:)[^:]*$` of
`utils.get_error_message` matches. -/
def afterLastColon : List Char → Option (List Char)
  | [] => none
  | c :: rest =>
    match afterLastColon rest with
    | some r => some r
    | none => if c = ':' then some rest else none

/-- Embedding of `utils.get_error_message`: the part of the error field after
its last colon, `none` when the field is `None` or has no colon. -/
def get_error_message (error_field : Option String) : Option String :=
  match error_field with
  | none => none
  | some s => (afterLastColon s.toList).map List.asString

/-- Characters strictly after the first colon of `cs`, or `none` when `cs`
contains no colon. -/
def afterFirstColon : List Char → Option (List Char)
  | [] => none
  | c :: rest => if c = ':' then some rest else afterFirstColon rest

/-- Characters strictly before the last colon of `cs`, or `none` when `cs`
contains no colon. -/
def beforeLastColon : List Char → Option (List Char)
  | [] => none
  | c :: rest =>
    match beforeLastColon rest with
    | some r => some (c :: r)
    | none => if c = ':' then some [] else none

/-- Embedding of `utils.get_error_args`.  The regex `(?<=:).*(?=:)` matches
the text between the first and the last colon of the error field (so the
field needs at least two colons); a non-empty match is split on commas and
an empty match yields the empty list. -/
def get_error_args (error_field : Option String) : Option (List String) :=
  match error_field with
  | none => none
  | some s =>
    match afterFirstColon s.toList with
    | none => none
    | some tail =>
      match beforeLastColon tail with
      | none => none
      | some mid =>
        if mid = [] then some []
        else some ((List.asString mid).splitOn ",")

/-- Embedding of `utils.is_matching_response`.  The first argument is the
response message and the second the sent message, as in the source; `none`
stands for Python `None`. -/
def is_matching_response (response_message : Option Message)
    (message : Option Message) : Bool :=
  match message, response_message with
  | some m, some r =>
    (m.channel == r.channel) && (m.id? == r.id?) && r.successful?.isSome
  | _, _ => false

/-- Embedding of `utils.is_auth_error_message`: the error code of the
message's `error` field is 401 (UNAUTHORIZED) or 403 (FORBIDDEN). -/
def is_auth_error_message (response_message : Message) : Bool :=
  match get_error_code response_message.error? with
  | some code => code = 401 || code = 403
  | none => false

/-! ### `aiocometd/exceptions.py`: the `ServerError` accessors -/

/-- Shallow embedding of `exceptions.ServerError`: an error description plus
the (possibly absent) server response message it was raised with. -/
structure ServerError where
  message : String
  response : Option Message
  deriving Repr, DecidableEq

/-- Embedding of `ServerError.error`: the `error` field of the response, or
`none` when the response is `None` or carries no `error` field. -/
def ServerError.error (e : ServerError) : Option String :=
  match e.response with
  | none => none
  | some r => r.error?

/-- Embedding of `ServerError.error_code`. -/
def ServerError.error_code (e : ServerError) : Option Nat :=
  get_error_code e.error

/-- Embedding of `ServerError.error_message`. -/
def ServerError.error_message (e : ServerError) : Option String :=
  get_error_message e.error

/-- Embedding of `ServerError.error_args`. -/
def ServerError.error_args (e : ServerError) : Option (List String) :=
  get_error_args e.error

/-- Spec-side reading (claim C10) of "the error field begins with three
digits": the field is a string whose first three characters are decimal
digits. -/
def beginsWithThreeDigits (s : String) : Bool :=
  match s.toList with
  | c1 :: c2 :: c3 :: _ => c1.isDigit && c2.isDigit && c3.isDigit
  | _ => false

/-- Spec-side reading (claim C10) of "the value of those first three
digits". -/
def threeDigitValue (s : String) : Nat :=
  match s.toList with
  | c1 :: c2 :: c3 :: _ => (c1.toNat - 48) * 100 + (c2.toNat - 48) * 10 + (c3.toNat - 48)
  | _ => 0

/-! ### `aiocometd/transports/base.py`: state, state events, subscriptions -/

/-- The state-relevant part of a `TransportBase` object: the current value of
the `_state` property together with the set/cleared status of the
`asyncio.Event` stored for each state in `_state_events`. -/
structure TransportCore where
  state : TState
  events : TState → Bool

/-- Embedding of `TransportBase._set_state_event`: when the new state differs
from the old one, the old state's event is cleared and the new state's
event is set; otherwise nothing happens. -/
def set_state_event (old new : TState) (ev : TState → Bool) : TState → Bool :=
  if new = old then ev
  else fun s => if s = old then false else if s = new then true else ev s

/-- Embedding of the `_state` property setter: update the events through
`_set_state_event` and store the new state. -/
def setState (c : TransportCore) (value : TState) : TransportCore :=
  { state := value, events := set_state_event c.state value c.events }

/-- Embedding of `TransportBase.__init__` as far as state is concerned: all
five `asyncio.Event`s start cleared, and the assignment
`self._state = TransportState.DISCONNECTED` runs through the `_state`
property setter, whose getter defaults to `DISCONNECTED` while the backing
attribute is still unset — so the setter sees old = new = `DISCONNECTED`
and sets no event. -/
def initTransportCore : TransportCore :=
  setState { state := TState.disconnected, events := fun _ => false }
    TState.disconnected

/-- Transport cores reachable from a freshly constructed transport by any
sequence of `_state` assignments (every state change in the source goes
through the `_state` property setter). -/
inductive ReachableCore : TransportCore → Prop
  | init : ReachableCore initTransportCore
  | step (c : TransportCore) (v : TState) :
      ReachableCore c → ReachableCore (setState c v)

/-- Embedding of `TransportBase.wait_for_state`: the call
`await self._state_events[state].wait()` returns immediately exactly when
the event for the requested state is set. -/
def wait_returns_immediately (c : TransportCore) (s : TState) : Bool :=
  c.events s

/-- Embedding of `TransportBase._update_subscriptions`.  Python dict lookups
that can raise `KeyError` (`m["successful"]`, and `m["subscription"]` on
the branches that evaluate it) make the result `none`; Python's
short-circuiting `and` is mirrored so that branches which never reach a
lookup cannot raise. -/
def update_subscriptions (subs : Finset String) (m : Message) :
    Option (Finset String) :=
  if m.channel = metaSubscribeChannel then
    match m.successful? with
    | none => none
    | some s =>
      if s then
        match m.subscription? with
        | none => none
        | some sub =>
          if sub ∉ subs then some (insert sub subs) else some subs
      else
        match m.subscription? with
        | none => some subs
        | some sub =>
          if sub ∈ subs then some (subs.erase sub) else some subs
  else if m.channel = metaUnsubscribeChannel then
    match m.successful? with
    | none => none
    | some s =>
      if s then
        match m.subscription? with
        | none => none
        | some sub =>
          if sub ∈ subs then some (subs.erase sub) else some subs
      else some subs
  else some subs

/-! ### `TransportBase.request_timeout` -/

/-- The `REQUEST_TIMEOUT_INCREASE_FACTOR` class constant. -/
def REQUEST_TIMEOUT_INCREASE_FACTOR : ℚ := 1.2

/-- Embedding of the `TransportBase.request_timeout` property: when the
stored reconnect advice has a `timeout` value passing
`isinstance(timeout, (int, float))`, that value is converted from
milliseconds to seconds and multiplied by the increase factor; otherwise
the property is `None`. -/
def request_timeout (advice : Advice) : Option ℚ :=
  match advice.timeout? with
  | some v =>
    if pyIsIntOrFloat v then
      some (v.toQ / 1000 * REQUEST_TIMEOUT_INCREASE_FACTOR)
    else none
  | none => none

/-- The timeout actually applied to a network send: both concrete transports
pass `self.request_timeout` to the HTTP library (`session.post(...,
timeout=...)` and `ws_connect(..., receive_timeout=...)`), which falls
back to its own default when the value is `None`.  The library default is
a parameter of the model. -/
def applied_request_timeout (libraryDefault : Option ℚ) (advice : Advice) :
    Option ℚ :=
  match request_timeout advice with
  | some t => some t
  | none => libraryDefault

/-! ### `TransportBase._send_payload_with_auth` -/

/-- Outcome of one `_send_payload` call: a response message, or a raised
`TransportError`. -/
inductive SendOutcome
  | ok (m : Message)
  | netError
  deriving Repr, DecidableEq

/-- Trace of one `_send_payload_with_auth` call: the surfaced outcome, how
many times `_send_payload` ran for the payload, and how many times
`self._auth.authenticate()` was invoked. -/
structure AuthSendTrace where
  result : SendOutcome
  sendCount : Nat
  authCalls : Nat
  deriving Repr, DecidableEq

/-- Embedding of `TransportBase._send_payload_with_auth`.  The two possible
`_send_payload` network exchanges are abstracted by their scripted
outcomes `first` and `second`; `hasAuth` tells whether `self._auth` is
set.  A raised `TransportError` from the first send propagates untouched;
an auth-error response with an auth extension present triggers exactly one
`authenticate()` call and one resend whose outcome is returned as is;
every other first outcome is returned directly.  (`authenticate()` itself
is an abstract user hook; the model treats it as completing normally.) -/
def send_payload_with_auth (hasAuth : Bool) (first second : SendOutcome) :
    AuthSendTrace :=
  match first with
  | .netError => ⟨.netError, 1, 0⟩
  | .ok resp =>
    if hasAuth && is_auth_error_message resp then
      ⟨second, 2, 1⟩
    else ⟨.ok resp, 1, 0⟩

/-! ### `TransportBase._connect_done` and `_follow_advice` -/

/-- A transport as `_connect_done` sees it: its state core, the stored
reconnect advice (`_reconnect_advice`), and the static failure-retry delay
(`_reconnect_timeout`). -/
structure TransportModel where
  core : TransportCore
  reconnect_advice : Advice
  reconnect_timeout : ℚ

/-- An operation scheduled by `_follow_advice`, with the delay handed to
`defer` (`none` when the stored advice has no `interval`). -/
inductive ScheduledOp
  | handshakeOp (delay : Option ℚ)
  | connectOp (delay : Option ℚ)
  deriving Repr, DecidableEq

/-- Embedding of `TransportBase._follow_advice`: `"handshake"` schedules a
deferred handshake, `"retry"` schedules a deferred connect, and any other
advice value schedules nothing and sets the state to
`SERVER_DISCONNECTED`. -/
def follow_advice (tm : TransportModel) (advice : String)
    (delay : Option ℚ) : TransportModel × Option ScheduledOp :=
  if advice = "handshake" then (tm, some (ScheduledOp.handshakeOp delay))
  else if advice = "retry" then (tm, some (ScheduledOp.connectOp delay))
  else ({ tm with core := setState tm.core TState.serverDisconnected }, none)

/-- Result of the awaited connect/handshake future: a message, or a raised
exception. -/
inductive ConnectTaskResult
  | ok (m : Message)
  | exn
  deriving Repr

/-- Embedding of `TransportBase._connect_done`, the done-callback of the
background connect/handshake task.  The local advice defaults to
`"retry"` and is replaced only when the future produced a message with
`successful == false` carrying an `advice.reconnect` value; the delay
defaults to the stored advice's `interval` and is replaced by the static
`_reconnect_timeout` when the future raised.  On a message result the
state is set to `CONNECTED` unconditionally (even when it was
`DISCONNECTING`); on an exception it is set to `CONNECTING` unless
`DISCONNECTING`.  `_follow_advice` then runs unless the state is (still)
`DISCONNECTING`. -/
def connect_done (tm : TransportModel) (res : ConnectTaskResult) :
    TransportModel × Option ScheduledOp :=
  let delay0 : Option ℚ := tm.reconnect_advice.interval?
  match res with
  | .ok m =>
    let adviceStr : String :=
      if m.successful?.getD true = false then
        match m.advice? with
        | some a =>
          match a.reconnect? with
          | some r => r
          | none => "retry"
        | none => "retry"
      else "retry"
    let tm1 : TransportModel := { tm with core := setState tm.core TState.connected }
    if tm1.core.state = TState.disconnecting then (tm1, none)
    else follow_advice tm1 adviceStr delay0
  | .exn =>
    let tm1 : TransportModel :=
      if tm.core.state = TState.disconnecting then tm
      else { tm with core := setState tm.core TState.connecting }
    if tm1.core.state = TState.disconnecting then (tm1, none)
    else follow_advice tm1 "retry" (some tm.reconnect_timeout)

/-- The advice value that `_connect_done` effectively hands to
`_follow_advice` for a given task result (used by the amended claim C2). -/
def effective_advice (res : ConnectTaskResult) : String :=
  match res with
  | .ok m =>
    if m.successful?.getD true = false then
      match m.advice? with
      | some a => a.reconnect?.getD "retry"
      | none => "retry"
    else "retry"
  | .exn => "retry"

/-- The delay that `_connect_done` effectively hands to `_follow_advice` for
a given task result. -/
def effective_delay (tm : TransportModel) (res : ConnectTaskResult) :
    Option ℚ :=
  match res with
  | .ok _ => tm.reconnect_advice.interval?
  | .exn => some tm.reconnect_timeout

/-! ### `aiocometd/client.py`: transport negotiation and `open` -/

/-- Embedding of the loop at the top of `Client._pick_connection_type`:
every server-declared connection type string is parsed with the
`ConnectionType` constructor, `ValueError`s (unknown strings) being
suppressed. -/
def parseServerTypes (connection_types : List String) : List ConnectionType :=
  connection_types.filterMap connectionTypeFromString

/-- Embedding of `min(intersection, key=self._connection_types.index)`: the
element of the list with the smallest index in `prefs`, the earlier
element winning ties, `none` for an empty list. -/
def minByPrefIndex (prefs : List ConnectionType) :
    List ConnectionType → Option ConnectionType
  | [] => none
  | c :: rest =>
    match minByPrefIndex prefs rest with
    | none => some c
    | some d => if prefs.indexOf c ≤ prefs.indexOf d then some c else some d

/-- Embedding of `Client._pick_connection_type`: intersect the parsed
server-supported types with the caller's preference list and pick the
member with the lowest index in the preference list, `none` when the
intersection is empty.  (Python intersects two `set`s; the list built
here may carry duplicates, which changes neither membership nor the
minimum.) -/
def pickConnectionType (prefs : List ConnectionType)
    (server_types : List String) : Option ConnectionType :=
  minByPrefIndex prefs ((parseServerTypes server_types).filter (· ∈ prefs))

/-- Membership in the intersection `_pick_connection_type` minimizes over. -/
def interMem (prefs : List ConnectionType) (server_types : List String)
    (c : ConnectionType) : Prop :=
  c ∈ parseServerTypes server_types ∧ c ∈ prefs

/-- The fields of the handshake response that `Client._negotiate_transport`
inspects. -/
structure HandshakeResponse where
  successful : Bool
  supportedConnectionTypes : List String
  deriving Repr, DecidableEq

/-- A protocol-level network exchange performed during `Client.open`. -/
inductive NetCall
  | handshakeCall
  | connectCall
  deriving Repr, DecidableEq

/-- Outcome of `Client.open`. -/
inductive OpenOutcome
  | clientError
  | serverError
  | opened (ct : ConnectionType)
  deriving Repr, DecidableEq

/-- Embedding of the control flow of `Client.open` together with
`Client._negotiate_transport`, given the scripted handshake response and
the `successful` flag of the scripted first connect response.  The
handshake response is verified (`ServerError` on failure), then
`_pick_connection_type` runs; `None` raises `ClientError` before any
further protocol exchange (closing the provisional transport's HTTP
session is resource cleanup, not a protocol call).  Otherwise the
(possibly swapped) transport performs the first connect, whose verified
result decides between `ServerError` and an open client. -/
def openClient (prefs : List ConnectionType) (resp : HandshakeResponse)
    (connectSuccessful : Bool) : OpenOutcome × List NetCall :=
  if resp.successful = false then (OpenOutcome.serverError, [NetCall.handshakeCall])
  else
    match pickConnectionType prefs resp.supportedConnectionTypes with
    | none => (OpenOutcome.clientError, [NetCall.handshakeCall])
    | some ct =>
      if connectSuccessful then
        (OpenOutcome.opened ct, [NetCall.handshakeCall, NetCall.connectCall])
      else (OpenOutcome.serverError, [NetCall.handshakeCall, NetCall.connectCall])

/-! ### `Client.close` and `TransportBase.disconnect` -/

/-- Embedding of `TransportBase.disconnect`: the state is set to
`DISCONNECTING`, the connect task is stopped, the `DISCONNECT` message is
sent best-effort when the transport was `CONNECTED` (with
`TransportError`s suppressed and without touching the state), and the
`finally` block sets the state to `DISCONNECTED`. -/
def transportDisconnect (t : TransportCore) : TransportCore :=
  setState (setState t TState.disconnecting) TState.disconnected

/-- The `Client` fields that `close` touches: the `_closed` flag and the
transport (present on every open client, since `open` assigns it before
clearing `_closed`). -/
structure ClientModel where
  closed : Bool
  transport : TransportCore

/-- Embedding of `Client.close`: a no-op on a closed client; otherwise the
transport is disconnected and its resources released, and the `finally`
block marks the client closed. -/
def clientClose (c : ClientModel) : ClientModel :=
  if c.closed then c
  else { closed := true, transport := transportDisconnect c.transport }

/-! ### Concrete instances used by witnesses and counterexamples -/

/-- A concrete open client (transport `CONNECTED`), for the C7 witness. -/
def c7ExampleClient : ClientModel :=
  { closed := false, transport := setState initTransportCore TState.connected }

/-- A transport whose state is `DISCONNECTING` (a `disconnect` began while
the completed connect task's done-callback was still pending), for the C2
counterexample. -/
def c2DisconnectingTransport : TransportModel :=
  { core := setState (setState initTransportCore TState.connecting)
      TState.disconnecting,
    reconnect_advice := {},
    reconnect_timeout := 1 }

/-- A successful connect response message without advice, for the C2
counterexample. -/
def c2OkMessage : Message :=
  { channel := "/meta/connect", successful? := some true }

/-- A transport in state `CONNECTING` whose stored advice says
`reconnect = "none"`, for the C2 counterexample. -/
def c2AdviceNoneTransport : TransportModel :=
  { core := setState initTransportCore TState.connecting,
    reconnect_advice := { reconnect? := some "none" },
    reconnect_timeout := 1 }

/-- A successful connect response message whose advice says
`reconnect = "none"`, for the C2 counterexample. -/
def c2OkAdviceNoneMessage : Message :=
  { channel := "/meta/connect", successful? := some true,
    advice? := some { reconnect? := some "none" } }

/-- An advice whose `timeout` field holds the JSON boolean `true` — not a
JSON number — for the C8 counterexample. -/
def c8BoolTimeoutAdvice : Advice :=
  { timeout? := some (JVal.jbool true) }

/-! ### Helper lemmas -/

theorem afterLastColon_eq_none {cs : List Char} (h : (':') ∉ cs) :
    afterLastColon cs = none := by
  induction cs with
  | nil => rfl
  | cons c rest ih =>
    simp only [List.mem_cons, not_or] at h
    simp [afterLastColon, ih h.2, h.1, Ne.symm h.1]

theorem afterFirstColon_eq_none {cs : List Char} (h : (':') ∉ cs) :
    afterFirstColon cs = none := by
  induction cs with
  | nil => rfl
  | cons c rest ih =>
    simp only [List.mem_cons, not_or] at h
    simp [afterFirstColon, ih h.2, Ne.symm h.1]

theorem minByPrefIndex_eq_none_iff (prefs l : List ConnectionType) :
    minByPrefIndex prefs l = none ↔ l = [] := by
  cases l with
  | nil => simp [minByPrefIndex]
  | cons c rest =>
    cases h : minByPrefIndex prefs rest with
    | none => simp [minByPrefIndex, h]
    | some d =>
      simp only [minByPrefIndex, h]
      split <;> simp

theorem minByPrefIndex_mem {prefs : List ConnectionType} :
    ∀ {l : List ConnectionType} {c}, minByPrefIndex prefs l = some c → c ∈ l := by
  intro l
  induction l with
  | nil => intro c h; simp [minByPrefIndex] at h
  | cons a t ih =>
    intro c h
    cases ht : minByPrefIndex prefs t with
    | none =>
      simp only [minByPrefIndex, ht, Option.some.injEq] at h
      subst h
      exact List.mem_cons_self a t
    | some d =>
      simp only [minByPrefIndex, ht] at h
      split at h <;> simp only [Option.some.injEq] at h <;> subst h
      · exact List.mem_cons_self a t
      · exact List.mem_cons_of_mem a (ih ht)

theorem minByPrefIndex_min {prefs : List ConnectionType} :
    ∀ {l : List ConnectionType} {c}, minByPrefIndex prefs l = some c →
      ∀ d ∈ l, prefs.indexOf c ≤ prefs.indexOf d := by
  intro l
  induction l with
  | nil => intro c h; simp [minByPrefIndex] at h
  | cons a t ih =>
    intro c h d hd
    rcases List.mem_cons.mp hd with rfl | hdt
    · cases ht : minByPrefIndex prefs t with
      | none =>
        simp only [minByPrefIndex, ht, Option.some.injEq] at h
        subst h
        exact Nat.le_refl _
      | some e =>
        simp only [minByPrefIndex, ht] at h
        split at h <;> simp only [Option.some.injEq] at h <;> subst h
        · exact Nat.le_refl _
        · omega
    · cases ht : minByPrefIndex prefs t with
      | none =>
        rw [(minByPrefIndex_eq_none_iff prefs t).mp ht] at hdt
        simp at hdt
      | some e =>
        have he := ih ht d hdt
        simp only [minByPrefIndex, ht] at h
        split at h <;> simp only [Option.some.injEq] at h <;> subst h
        · omega
        · exact he

theorem minByPrefIndex_complete {prefs : List ConnectionType} :
    ∀ {l : List ConnectionType} {c}, (∀ x ∈ l, x ∈ prefs) → c ∈ l →
      (∀ d ∈ l, prefs.indexOf c ≤ prefs.indexOf d) →
      minByPrefIndex prefs l = some c := by
  intro l
  induction l with
  | nil => intro c _ hc _; simp at hc
  | cons a t ih =>
    intro c hsub hc hmin
    have ha : a ∈ prefs := hsub a (List.mem_cons_self a t)
    have hcp : c ∈ prefs := hsub c hc
    simp only [minByPrefIndex]
    rcases List.mem_cons.mp hc with rfl | hct
    · cases ht : minByPrefIndex prefs t with
      | none => simp [ht]
      | some e =>
        have he : e ∈ t := minByPrefIndex_mem ht
        have hle := hmin e (List.mem_cons_of_mem _ he)
        simp [ht, hle]
    · have hminT : ∀ d ∈ t, prefs.indexOf c ≤ prefs.indexOf d := by
        intro d hd
        exact hmin d (List.mem_cons_of_mem a hd)
      rw [ih (fun x hx => hsub x (List.mem_cons_of_mem a hx)) hct hminT]
      by_cases hle : prefs.indexOf a ≤ prefs.indexOf c
      · have hge : prefs.indexOf c ≤ prefs.indexOf a :=
          hmin a (List.mem_cons_self a t)
        have heq : prefs.indexOf a = prefs.indexOf c := Nat.le_antisymm hle hge
        have hac : a = c := (List.indexOf_inj ha hcp).mp heq
        subst hac
        simp
      · simp [hle]

theorem mem_pick_intersection_iff {prefs : List ConnectionType}
    {st : List String} {c : ConnectionType} :
    c ∈ (parseServerTypes st).filter (· ∈ prefs) ↔ interMem prefs st c := by
  simp [List.mem_filter, interMem]

theorem pickConnectionType_some_iff (prefs : List ConnectionType)
    (st : List String) (c : ConnectionType) :
    pickConnectionType prefs st = some c ↔
      interMem prefs st c ∧
        ∀ d, interMem prefs st d → prefs.indexOf c ≤ prefs.indexOf d := by
  unfold pickConnectionType
  constructor
  · intro h
    refine ⟨mem_pick_intersection_iff.mp (minByPrefIndex_mem h), ?_⟩
    intro d hd
    exact minByPrefIndex_min h d (mem_pick_intersection_iff.mpr hd)
  · rintro ⟨hc, hmin⟩
    refine minByPrefIndex_complete ?_ (mem_pick_intersection_iff.mpr hc) ?_
    · intro x hx
      exact (mem_pick_intersection_iff.mp hx).2
    · intro d hd
      exact hmin d (mem_pick_intersection_iff.mp hd)

theorem pickConnectionType_eq_none_iff (prefs : List ConnectionType)
    (st : List String) :
    pickConnectionType prefs st = none ↔ ∀ c, ¬ interMem prefs st c := by
  unfold pickConnectionType
  rw [minByPrefIndex_eq_none_iff, List.filter_eq_nil_iff]
  constructor
  · intro h c hc
    have := h c (hc.1)
    simp only [decide_eq_true_eq] at this
    exact this hc.2
  · intro h a ha
    simp only [decide_eq_true_eq]
    intro hp
    exact h a ⟨ha, hp⟩

theorem parseServerTypes_filter_known (st : List String) :
    parseServerTypes (st.filter (fun s => (connectionTypeFromString s).isSome)) =
      parseServerTypes st := by
  induction st with
  | nil => rfl
  | cons s t ih =>
    cases h : connectionTypeFromString s with
    | none =>
      simp only [parseServerTypes] at ih ⊢
      simp [List.filter_cons, List.filterMap_cons, h, ih]
    | some ct =>
      simp only [parseServerTypes] at ih ⊢
      simp [List.filter_cons, List.filterMap_cons, h, ih]

theorem get_error_code_some_iff (s : String) (n : Nat) :
    get_error_code (some s) = some n ↔
      beginsWithThreeDigits s = true ∧ n = threeDigitValue s := by
  unfold get_error_code beginsWithThreeDigits threeDigitValue
  cases hl : s.data with
  | nil => simp [hl]
  | cons c1 t1 =>
    cases t1 with
    | nil => simp [hl]
    | cons c2 t2 =>
      cases t2 with
      | nil => simp [hl]
      | cons c3 t3 =>
        by_cases hd : (c1.isDigit && c2.isDigit && c3.isDigit) = true
        · simp [hl, hd, eq_comm]
        · simp [hl, hd]

end Aiocometd

namespace Aiocometd

/-- C4: `is_matching_response` holds exactly when both messages are present,
they share the same channel and the same optional `id`, and the response
carries a `successful` field; it is false whenever any of these fails or
either message is absent. -/
theorem c4_is_matching_response_iff (r m : Option Message) :
    is_matching_response r m = true ↔
      ∃ rm mm, r = some rm ∧ m = some mm ∧
        mm.channel = rm.channel ∧ mm.id? = rm.id? ∧ rm.successful?.isSome = true := by
  cases r with
  | none =>
    cases m <;> simp [is_matching_response]
  | some rm =>
    cases m with
    | none => simp [is_matching_response]
    | some mm =>
      simp only [is_matching_response, Bool.and_eq_true, beq_iff_eq,
        Option.some.injEq]
      constructor
      · rintro ⟨⟨h1, h2⟩, h3⟩
        exact ⟨rm, mm, rfl, rfl, h1, h2, h3⟩
      · rintro ⟨rm2, mm2, hr, hm, h1, h2, h3⟩
        cases hr; cases hm
        exact ⟨⟨h1, h2⟩, h3⟩

/-- C10: the error-field parsers behind `ServerError.error_code`,
`ServerError.error_args` and `ServerError.error_message` are total: a
`None` error field (in particular a `ServerError` without a response, or
with a response lacking an `error` field) makes all three return `None`;
a string without a colon makes the message and args parsers return `None`
rather than raise; and `error_code` returns an integer exactly when the
error field begins with three decimal digits, in which case the result is
the value of those three digits. -/
theorem c10_error_parsers_total :
    (∀ msg : String,
      (ServerError.mk msg none).error_code = none ∧
      (ServerError.mk msg none).error_message = none ∧
      (ServerError.mk msg none).error_args = none)
    ∧ (∀ (e : Option String) (n : Nat),
        get_error_code e = some n ↔
          ∃ s, e = some s ∧ beginsWithThreeDigits s = true ∧ n = threeDigitValue s)
    ∧ (∀ s : String, (':') ∉ s.toList →
        get_error_message (some s) = none ∧ get_error_args (some s) = none) := by
  refine ⟨?_, ?_, ?_⟩
  · intro msg
    refine ⟨rfl, rfl, rfl⟩
  · intro e n
    cases e with
    | none => simp [get_error_code]
    | some s =>
      rw [get_error_code_some_iff]
      constructor
      · rintro ⟨hb, hn⟩
        exact ⟨s, rfl, hb, hn⟩
      · rintro ⟨s2, hs, hb, hn⟩
        cases hs
        exact ⟨hb, hn⟩
  · intro s h
    have h1 : afterLastColon s.data = none := afterLastColon_eq_none h
    have h2 : afterFirstColon s.data = none := afterFirstColon_eq_none h
    constructor
    · simp [get_error_message, String.toList, h1]
    · simp [get_error_args, String.toList, h2]

/-- C3: effect of `_update_subscriptions` on the subscription set, for every
set and consumed response message: a successful `/meta/subscribe` response
for channel `x` makes `x` a member; a failed subscribe response carrying a
`subscription` value `x` already in the set removes it; a successful
`/meta/unsubscribe` response for `x` removes `x`; a failed unsubscribe
response leaves the set unchanged; a message on any other channel leaves
the set unchanged. -/
theorem c3_update_subscriptions_spec (subs : Finset String) (m : Message) :
    (m.channel = metaSubscribeChannel → m.successful? = some true →
      ∀ x, m.subscription? = some x →
        ∃ subs2, update_subscriptions subs m = some subs2 ∧ x ∈ subs2)
    ∧ (m.channel = metaSubscribeChannel → m.successful? = some false →
      ∀ x, m.subscription? = some x → x ∈ subs →
        update_subscriptions subs m = some (subs.erase x) ∧ x ∉ subs.erase x)
    ∧ (m.channel = metaUnsubscribeChannel → m.successful? = some true →
      ∀ x, m.subscription? = some x →
        ∃ subs2, update_subscriptions subs m = some subs2 ∧ x ∉ subs2)
    ∧ (m.channel = metaUnsubscribeChannel → m.successful? = some false →
        update_subscriptions subs m = some subs)
    ∧ (m.channel ≠ metaSubscribeChannel → m.channel ≠ metaUnsubscribeChannel →
        update_subscriptions subs m = some subs) := by
  have hne : metaSubscribeChannel ≠ metaUnsubscribeChannel := by decide
  refine ⟨?_, ?_, ?_, ?_, ?_⟩
  · intro hc hs x hx
    by_cases hmem : x ∈ subs
    · exact ⟨subs, by simp [update_subscriptions, hc, hs, hx, hmem], hmem⟩
    · exact ⟨insert x subs, by simp [update_subscriptions, hc, hs, hx, hmem],
        Finset.mem_insert_self x subs⟩
  · intro hc hs x hx hmem
    refine ⟨by simp [update_subscriptions, hc, hs, hx, hmem], ?_⟩
    simp [Finset.mem_erase]
  · intro hc hs x hx
    by_cases hmem : x ∈ subs
    · refine ⟨subs.erase x, ?_, ?_⟩
      · simp [update_subscriptions, hc, hne.symm, hs, hx, hmem]
      · simp [Finset.mem_erase]
    · exact ⟨subs, by simp [update_subscriptions, hc, hne.symm, hs, hx, hmem], hmem⟩
  · intro hc hs
    simp [update_subscriptions, hc, hne.symm, hs]
  · intro hc1 hc2
    simp [update_subscriptions, hc1, hc2]

/-- C5: `_send_payload_with_auth`, with the two possible `_send_payload`
exchanges abstracted by their outcomes.  When an auth extension is
configured and the first outcome is an auth-error response message,
`authenticate()` runs exactly once and the payload is resent exactly once,
the second outcome (success or failure) being surfaced unchanged; when no
auth extension is configured or the first outcome is not an auth-error
response (including a raised `TransportError`), the payload is sent
exactly once, with no `authenticate()` call, and the first outcome is
surfaced. -/
theorem c5_send_payload_with_auth_spec (hasAuth : Bool)
    (first second : SendOutcome) :
    (∀ m, hasAuth = true → first = SendOutcome.ok m →
      is_auth_error_message m = true →
      send_payload_with_auth hasAuth first second =
        ⟨second, 2, 1⟩)
    ∧ ((hasAuth = false ∨
        ∀ m, first = SendOutcome.ok m → is_auth_error_message m = false) →
      send_payload_with_auth hasAuth first second = ⟨first, 1, 0⟩) := by
  constructor
  · intro m hAuth hFirst hErr
    subst hAuth; subst hFirst
    simp [send_payload_with_auth, hErr]
  · intro h
    cases first with
    | netError => simp [send_payload_with_auth]
    | ok resp =>
      rcases h with h | h
      · subst h; simp [send_payload_with_auth]
      · simp [send_payload_with_auth, h resp rfl]

/-- C7: `Client.close` is idempotent: closing an open client leaves the
client closed with its transport in state `DISCONNECTED`, and a second
`close` is a no-op (raising nothing) that leaves the same closed client
with the transport still `DISCONNECTED`. -/
theorem c7_close_idempotent (c : ClientModel) (h : c.closed = false) :
    (clientClose c).closed = true ∧
    (clientClose c).transport.state = TState.disconnected ∧
    clientClose (clientClose c) = clientClose c ∧
    (clientClose (clientClose c)).closed = true ∧
    (clientClose (clientClose c)).transport.state = TState.disconnected := by
  have h1 : clientClose c =
      { closed := true, transport := transportDisconnect c.transport } := by
    simp [clientClose, h]
  have h2 : clientClose (clientClose c) = clientClose c := by
    rw [h1]; simp [clientClose]
  refine ⟨by rw [h1], by rw [h1]; rfl, h2, ?_, ?_⟩
  · rw [h2, h1]
  · rw [h2, h1]; rfl

/-- C7 witness: closing the concrete open client twice leaves it closed with
the transport `DISCONNECTED` both times. -/
theorem c7_close_idempotent_witness :
    c7ExampleClient.closed = false ∧
    (clientClose c7ExampleClient).closed = true ∧
    (clientClose c7ExampleClient).transport.state = TState.disconnected ∧
    clientClose (clientClose c7ExampleClient) = clientClose c7ExampleClient ∧
    (clientClose (clientClose c7ExampleClient)).closed = true ∧
    (clientClose (clientClose c7ExampleClient)).transport.state =
      TState.disconnected := by
  refine ⟨rfl, ?_⟩
  exact c7_close_idempotent c7ExampleClient rfl

/-- C8 counterexample: an advice whose `timeout` field holds the JSON
boolean `true` carries no numeric `timeout` value (no JSON number), yet
`request_timeout` is not `None` — the HTTP library default (here `300`
seconds) is not applied; instead Python's
`isinstance(timeout, (int, float))` accepts the boolean (`bool`
subclasses `int`), coerces it to `1` millisecond and the applied timeout
is `1 / 1000 * 1.2 = 3 / 2500` seconds.  This refutes the claim's
dichotomy that every advice without a numeric `timeout` falls back to the
implementation default. -/
theorem c8_counterexample :
    (∀ t : ℚ, c8BoolTimeoutAdvice.timeout? ≠ some (JVal.num t)) ∧
    request_timeout c8BoolTimeoutAdvice = some (3 / 2500) ∧
    applied_request_timeout (some 300) c8BoolTimeoutAdvice = some (3 / 2500) ∧
    (3 / 2500 : ℚ) ≠ 300 := by
  refine ⟨?_, ?_, ?_, by norm_num⟩
  · intro t h
    simp [c8BoolTimeoutAdvice] at h
  · show some ((1 : ℚ) / 1000 * REQUEST_TIMEOUT_INCREASE_FACTOR) = some (3 / 2500)
    norm_num [REQUEST_TIMEOUT_INCREASE_FACTOR]
  · show some ((1 : ℚ) / 1000 * REQUEST_TIMEOUT_INCREASE_FACTOR) = some (3 / 2500)
    norm_num [REQUEST_TIMEOUT_INCREASE_FACTOR]

/-- C8 amended: the `request_timeout` property.  For every advice whose
`timeout` value passes Python's `isinstance(timeout, (int, float))` —
a JSON number of `t` milliseconds, or (because `bool` subclasses `int`) a
boolean coerced to `1` or `0` — the timeout applied to network sends is
`(value / 1000) * 1.2` seconds (the factor `1.2` being exactly `6 / 5` in
this rational model); in particular a numeric `timeout` of `t`
milliseconds gives `(t / 1000) * 1.2`.  For every advice whose `timeout`
is absent or neither number nor boolean, the property is `None` and the
HTTP library's own default is applied instead. -/
theorem c8_request_timeout_amended (advice : Advice) (dflt : Option ℚ) :
    (∀ t : ℚ, advice.timeout? = some (JVal.num t) →
      request_timeout advice = some (t / 1000 * (6 / 5)) ∧
      applied_request_timeout dflt advice = some (t / 1000 * (6 / 5)))
    ∧ (∀ v, advice.timeout? = some v → pyIsIntOrFloat v = true →
      request_timeout advice = some (v.toQ / 1000 * (6 / 5)) ∧
      applied_request_timeout dflt advice = some (v.toQ / 1000 * (6 / 5)))
    ∧ ((∀ v, advice.timeout? = some v → pyIsIntOrFloat v = false) →
      request_timeout advice = none ∧
      applied_request_timeout dflt advice = dflt) := by
  have hfac : REQUEST_TIMEOUT_INCREASE_FACTOR = 6 / 5 := by
    norm_num [REQUEST_TIMEOUT_INCREASE_FACTOR]
  have hgen : ∀ v, advice.timeout? = some v → pyIsIntOrFloat v = true →
      request_timeout advice = some (v.toQ / 1000 * (6 / 5)) ∧
      applied_request_timeout dflt advice = some (v.toQ / 1000 * (6 / 5)) := by
    intro v hv hnum
    have h1 : request_timeout advice = some (v.toQ / 1000 * (6 / 5)) := by
      simp [request_timeout, hv, hnum, hfac]
    exact ⟨h1, by simp [applied_request_timeout, h1]⟩
  refine ⟨?_, hgen, ?_⟩
  · intro t ht
    have := hgen (JVal.num t) ht rfl
    simpa [JVal.toQ] using this
  · intro h
    have h1 : request_timeout advice = none := by
      unfold request_timeout
      cases hv : advice.timeout? with
      | none => rfl
      | some v => simp [h v hv]
    exact ⟨h1, by simp [applied_request_timeout, h1]⟩

/-- C6 counterexample: a freshly constructed transport is in state
`DISCONNECTED` (a reachable instance), yet the event for `DISCONNECTED`
is not set, so `wait_for_state(DISCONNECTED)` does not return
immediately — `__init__` runs the `_state` setter with
old = new = `DISCONNECTED`, which sets no event.  This refutes the claim
that the current state's signal is set for every reachable transport. -/
theorem c6_counterexample_fresh_transport :
    ReachableCore initTransportCore ∧
    initTransportCore.state = TState.disconnected ∧
    wait_returns_immediately initTransportCore TState.disconnected = false :=
  ⟨ReachableCore.init, rfl, rfl⟩

/-- C6 amended: for every reachable transport, either the event for the
current state is set (so `wait_for_state` of the current state returns
immediately), or the transport has never actually changed state: it is
still in its initial `DISCONNECTED` state with no event set at all. -/
theorem c6_state_event_invariant (c : TransportCore) (h : ReachableCore c) :
    wait_returns_immediately c c.state = true ∨
      (c.state = TState.disconnected ∧ ∀ s, c.events s = false) := by
  induction h with
  | init =>
    right
    exact ⟨rfl, fun s => rfl⟩
  | step c v hr ih =>
    by_cases hv : v = c.state
    · have hev : setState c v = c := by
        simp [setState, set_state_event, hv]
      rw [hev]
      exact ih
    · left
      simp [wait_returns_immediately, setState, set_state_event, hv]

/-- C6 witness: a transport that transitioned once to `CONNECTING` is
reachable and satisfies the amended invariant (its current state's event
is set). -/
theorem c6_state_event_invariant_witness :
    ReachableCore (setState initTransportCore TState.connecting) ∧
    (wait_returns_immediately (setState initTransportCore TState.connecting)
        (setState initTransportCore TState.connecting).state = true ∨
      ((setState initTransportCore TState.connecting).state = TState.disconnected ∧
        ∀ s, (setState initTransportCore TState.connecting).events s = false)) :=
  ⟨ReachableCore.step initTransportCore TState.connecting ReachableCore.init,
    c6_state_event_invariant (setState initTransportCore TState.connecting)
      (ReachableCore.step initTransportCore TState.connecting ReachableCore.init)⟩

/-- C2 counterexample: the claim fails twice on the code.  First, with the
transport `DISCONNECTING` (a disconnect began while the completed task's
callback was pending) and a successful connect result, `_connect_done`
still schedules a connect operation — the `ok` branch overwrites the
state with `CONNECTED` before the `DISCONNECTING` check.  Second, with a
successful result whose advice (both in the message and as the stored
advice) says `reconnect = "none"`, a connect operation is scheduled
instead of stopping with `SERVER_DISCONNECTED`, because the response's
advice is consulted only when `successful == false`. -/
theorem c2_counterexample :
    (c2DisconnectingTransport.core.state = TState.disconnecting ∧
      (connect_done c2DisconnectingTransport
          (ConnectTaskResult.ok c2OkMessage)).2 =
        some (ScheduledOp.connectOp none)) ∧
    (c2OkAdviceNoneMessage.successful? = some true ∧
      c2OkAdviceNoneMessage.advice? = some { reconnect? := some "none" } ∧
      c2AdviceNoneTransport.reconnect_advice.reconnect? = some "none" ∧
      (connect_done c2AdviceNoneTransport
          (ConnectTaskResult.ok c2OkAdviceNoneMessage)).2 =
        some (ScheduledOp.connectOp none) ∧
      (connect_done c2AdviceNoneTransport
          (ConnectTaskResult.ok c2OkAdviceNoneMessage)).1.core.state =
        TState.connected) := by
  refine ⟨⟨rfl, ?_⟩, rfl, rfl, rfl, ?_, ?_⟩ <;> rfl

/-- C2 amended: when the background connect/handshake task completes, the
follow-up is governed by the effective advice — the result message's
`advice.reconnect` when the task returned a message with
`successful == false` carrying one, and `"retry"` in every other case
(successful results, results without advice, raised exceptions).  An
exception arriving while the transport is `DISCONNECTING` schedules
nothing and leaves the transport unchanged; in every other case
(including a message result arriving while `DISCONNECTING`, whose state
is overwritten with `CONNECTED`): effective advice `"handshake"`
schedules a handshake after the effective delay, `"retry"` schedules a
connect after the effective delay, and any other value schedules nothing
and sets the state to `SERVER_DISCONNECTED`. -/
theorem c2_connect_done_follows_effective_advice (tm : TransportModel)
    (res : ConnectTaskResult) :
    (res = ConnectTaskResult.exn → tm.core.state = TState.disconnecting →
      connect_done tm res = (tm, none))
    ∧ ((tm.core.state ≠ TState.disconnecting ∨ res ≠ ConnectTaskResult.exn) →
      (effective_advice res = "handshake" →
        (connect_done tm res).2 =
          some (ScheduledOp.handshakeOp (effective_delay tm res)))
      ∧ (effective_advice res = "retry" →
        (connect_done tm res).2 =
          some (ScheduledOp.connectOp (effective_delay tm res)))
      ∧ (effective_advice res ≠ "handshake" → effective_advice res ≠ "retry" →
        (connect_done tm res).2 = none ∧
          (connect_done tm res).1.core.state = TState.serverDisconnected)) := by
  constructor
  · intro hres hstate
    subst hres
    simp [connect_done, hstate]
  · intro hside
    cases res with
    | exn =>
      have hstate : tm.core.state ≠ TState.disconnecting := by
        rcases hside with h | h
        · exact h
        · exact absurd rfl h
      have hadv : effective_advice ConnectTaskResult.exn = "retry" := rfl
      refine ⟨?_, ?_, ?_⟩
      · intro h; rw [hadv] at h; exact absurd h (by decide)
      · intro h
        simp [connect_done, hstate, setState, follow_advice, effective_delay]
      · intro h1 h2; exact absurd hadv h2
    | ok m =>
      have hred : connect_done tm (ConnectTaskResult.ok m) =
          follow_advice
            { tm with core := setState tm.core TState.connected }
            (effective_advice (ConnectTaskResult.ok m))
            tm.reconnect_advice.interval? := by
        rcases hs : m.successful?.getD true with _ | _
        · rcases ha : m.advice? with _ | a
          · simp [connect_done, effective_advice, setState, hs, ha]
          · rcases hr : a.reconnect? with _ | r <;>
              simp [connect_done, effective_advice, setState, hs, ha, hr]
        · simp [connect_done, effective_advice, setState, hs]
      refine ⟨?_, ?_, ?_⟩
      · intro h
        rw [hred, follow_advice, if_pos h]
        rfl
      · intro h
        have hne : effective_advice (ConnectTaskResult.ok m) ≠ "handshake" := by
          rw [h]; decide
        rw [hred, follow_advice, if_neg hne, if_pos h]
        rfl
      · intro h1 h2
        rw [hred, follow_advice, if_neg h1, if_neg h2]
        exact ⟨rfl, rfl⟩

/-- C1: transport negotiation.  `_pick_connection_type` returns `c` exactly
when `c` belongs to the intersection of the parsed server-supported types
with the caller's preference list and has the lowest index in the
preference list among the intersection's members; and when the
intersection is empty, `open` fails with a `ClientError` (configuration
error) with the handshake as the only protocol-level network exchange. -/
theorem c1_transport_negotiation (prefs : List ConnectionType)
    (st : List String) (connectSuccessful : Bool) :
    (∀ c : ConnectionType,
      pickConnectionType prefs st = some c ↔
        interMem prefs st c ∧
          ∀ d, interMem prefs st d → prefs.indexOf c ≤ prefs.indexOf d)
    ∧ ((∀ c, ¬ interMem prefs st c) →
      openClient prefs ⟨true, st⟩ connectSuccessful =
        (OpenOutcome.clientError, [NetCall.handshakeCall])) := by
  constructor
  · intro c
    exact pickConnectionType_some_iff prefs st c
  · intro h
    have hp : pickConnectionType prefs st = none :=
      (pickConnectionType_eq_none_iff prefs st).mpr h
    simp [openClient, hp]

/-- C1 witness: with caller preference `[websocket, long-polling]` and server
support `["long-polling"]` the negotiated type is `long-polling`; with
caller preference `[websocket]` and server support `["long-polling"]` the
intersection is empty and `open` fails with `ClientError` right after the
handshake. -/
theorem c1_transport_negotiation_witness :
    pickConnectionType [ConnectionType.websocket, ConnectionType.long_polling]
        ["long-polling"] = some ConnectionType.long_polling ∧
    openClient [ConnectionType.websocket] ⟨true, ["long-polling"]⟩ true =
      (OpenOutcome.clientError, [NetCall.handshakeCall]) := by
  constructor
  · exact ((c1_transport_negotiation
      [ConnectionType.websocket, ConnectionType.long_polling]
      ["long-polling"] true).1 ConnectionType.long_polling).mpr
      (by
        constructor
        · exact ⟨by decide, by decide⟩
        · intro d hd
          cases d
          · decide
          · exact absurd hd.1 (by decide))
  · exact (c1_transport_negotiation [ConnectionType.websocket]
      ["long-polling"] true).2
      (by
        intro c
        cases c
        · intro h; exact absurd h.2 (by decide)
        · intro h; exact absurd h.1 (by decide))

/-- C9: server-declared connection-type strings that name no known
connection type are silently ignored: the negotiated result is unchanged
when the unknown strings are filtered out of the server's list, and
`open` (after a successful handshake) fails with a `ClientError`
configuration error exactly when no recognized server type appears in the
caller's preference list. -/
theorem c9_unknown_server_types_ignored (prefs : List ConnectionType)
    (st : List String) (connectSuccessful : Bool) :
    pickConnectionType prefs
        (st.filter fun s => (connectionTypeFromString s).isSome) =
      pickConnectionType prefs st
    ∧ ((openClient prefs ⟨true, st⟩ connectSuccessful).1 = OpenOutcome.clientError ↔
      ∀ c ∈ parseServerTypes st, c ∉ prefs) := by
  constructor
  · unfold pickConnectionType
    rw [parseServerTypes_filter_known]
  · have houter : (openClient prefs ⟨true, st⟩ connectSuccessful).1 =
        OpenOutcome.clientError ↔ pickConnectionType prefs st = none := by
      unfold openClient
      cases hp : pickConnectionType prefs st with
      | none => simp
      | some ct =>
        cases connectSuccessful <;> simp
    rw [houter, pickConnectionType_eq_none_iff]
    unfold interMem
    constructor
    · intro h c hc
      intro hp
      exact h c ⟨hc, hp⟩
    · intro h c hc
      exact h c hc.1 hc.2

end Aiocometd
